import Mathlib

/-!
Verification of the Vision-Narrador multi-tier cache and task-scheduling
engine (`cache_lru_multinivel.py` and `sistema_paralelizacion_ultraavanzado.py`)
against its natural-language specification.

The Python sources are shallowly embedded below.  Conventions of the
embedding:

* Python `int` sizes and byte counters are modelled as `Int` (Python ints are
  unbounded; subtraction must be exact).
* Wall-clock timestamps (`datetime.now()`, ISO strings in the Tier-2 metadata
  index) are modelled as a logical clock `Nat` passed explicitly to every
  operation; ISO-8601 strings compare lexicographically exactly as their
  underlying instants compare, so `Nat` order is faithful.
* Picklable Python values are modelled by the inductive `PyVal`;
  `pickle.dumps/loads` by an injective executable coding with a proved
  round-trip, `gzip.compress/decompress` by an executable run-length coder
  with a proved round-trip (only the round-trip property and the existence of
  length-reducing inputs are relied on, matching the real libraries).
* Float thresholds in the source (`capacidad_bytes * 0.1`,
  `capacidad_bytes * 0.05`) are modelled as the exact rational comparisons
  `10 * t ≤ cap` and `20 * t ≤ cap`.
* Python `dict` / `OrderedDict` are modelled as association lists in
  insertion order; assignment to an existing key keeps its position
  (`setA`), deletion removes it (`eraseA`), exactly as CPython dicts behave.
* Disk files of the Tier-2 store are an association list `key ↦ stored
  object`; a file's `st_size` is the length of the pickled object.
* Wall-clock-only statistics (`tiempo_promedio_acceso`,
  `memoria_utilizada_mb`) and the psutil-driven background threads are
  outside the modelled fragment; the body of the automatic cleanup
  (`_limpieza_automatica`) is modelled as a plain operation.
-/

/-- Model of a picklable Python value.  `blob n` is an opaque binary payload
whose pickled form has `n + 1` bytes (used to talk about large values without
materialising them). -/
inductive PyVal where
  | none
  | nat (n : Nat)
  | bytes (bs : List Nat)
  | blob (n : Nat)
  deriving DecidableEq, Repr

/-- Model of `pickle.dumps`: an injective tagged byte coding. -/
def pickleDumps : PyVal → List Nat
  | .none => [0]
  | .nat n => [1, n]
  | .bytes bs => 3 :: bs.length :: bs
  | .blob n => 4 :: List.replicate n 0

/-- Length of the pickled form, computed without materialising the bytes;
this is the model of `len(pickle.dumps(v))` and of the `st_size` of a file
holding `pickle.dump(v)`. -/
def pickleLen : PyVal → Nat
  | .none => 1
  | .nat _ => 2
  | .bytes bs => bs.length + 2
  | .blob n => n + 1

/-- Model of `pickle.loads`; `Option.none` models the `UnpicklingError` raise. -/
def pickleLoads : List Nat → Option PyVal
  | [0] => some .none
  | [1, n] => some (.nat n)
  | 3 :: n :: bs => if bs.length = n then some (.bytes bs) else Option.none
  | 4 :: rest => if rest.all (· = 0) then some (.blob rest.length) else Option.none
  | _ => Option.none

/-! ### Run-length coding: the executable model of `gzip` -/

/-- Run-length encoding of a byte list into (value, count) pairs. -/
def rle : List Nat → List (Nat × Nat)
  | [] => []
  | x :: xs =>
    match rle xs with
    | [] => [(x, 1)]
    | (y, c) :: rest => if x = y then (y, c + 1) :: rest else (x, 1) :: (y, c) :: rest

/-- Expansion of (value, count) pairs back into a byte list. -/
def rleExpand : List (Nat × Nat) → List Nat
  | [] => []
  | (v, c) :: rest => List.replicate c v ++ rleExpand rest

/-- Flatten pairs into a byte stream. -/
def flattenPairs : List (Nat × Nat) → List Nat
  | [] => []
  | (v, c) :: rest => v :: c :: flattenPairs rest

/-- Reassemble the byte stream into pairs. -/
def unflattenPairs : List Nat → List (Nat × Nat)
  | v :: c :: rest => (v, c) :: unflattenPairs rest
  | _ => []

/-- Model of `gzip.compress(bs, compresslevel=level)`: the level byte (as the
gzip header records compressor parameters) followed by the run-length coded
payload. -/
def gzipCompress (level : Nat) (bs : List Nat) : List Nat :=
  level :: flattenPairs (rle bs)

/-- Model of `gzip.decompress`. -/
def gzipDecompress : List Nat → List Nat
  | [] => []
  | _ :: rest => rleExpand (unflattenPairs rest)

/-! ### Association lists with Python-dict semantics -/

/-- First value bound to `k` (Python `d[k]` / `k in d`). -/
def lookupA {α : Type} : List (String × α) → String → Option α
  | [], _ => Option.none
  | (k', v) :: rest, k => if k' = k then some v else lookupA rest k

/-- Remove the binding of `k` (Python `del d[k]` / `d.pop(k)`). -/
def eraseA {α : Type} : List (String × α) → String → List (String × α)
  | [], _ => []
  | (k', v) :: rest, k => if k' = k then rest else (k', v) :: eraseA rest k

/-- Assign `d[k] = v`: replaces in place when present (CPython dicts keep the
original insertion position), appends otherwise. -/
def setA {α : Type} : List (String × α) → String → α → List (String × α)
  | [], k, v => [(k, v)]
  | (k', v') :: rest, k, v =>
    if k' = k then (k, v) :: rest else (k', v') :: setA rest k v

/-! ### Data model of `cache_lru_multinivel.py` -/

/-- `TipoDato`: data kinds used only to tune compression effort. -/
inductive TipoDato where
  | texto | imagen | audio | video | json | binario | entidades
  deriving DecidableEq, Repr

/-- `NivelCache`: the tier recorded in an entry's metadata. -/
inductive NivelCache where
  | l1_memoria | l2_disco | l3_comprimido
  deriving DecidableEq, Repr

/-- `MetadataCache`: per-entry metadata.  The SHA-256 checksum is modelled by
the serialized bytes themselves (it is stored and never verified). -/
structure Metadata where
  clave : String
  tamano_bytes : Int
  tipo_dato : TipoDato
  timestamp_creacion : Nat
  timestamp_acceso : Nat
  frecuencia_acceso : Nat
  nivel_cache : NivelCache
  comprimido : Bool
  checksum : List Nat
  tiempo_computacion : Rat
  prioridad : Int
  deriving DecidableEq, Repr

/-- `EstadisticasCache` (the wall-clock-only fields `tiempo_promedio_acceso`
and `memoria_utilizada_mb` are outside the modelled fragment). -/
structure EstadisticasCache where
  hits_l1 : Nat := 0
  hits_l2 : Nat := 0
  hits_l3 : Nat := 0
  misses : Nat := 0
  evictions : Nat := 0
  bytes_almacenados : Int := 0
  deriving DecidableEq, Repr

/-- `CompresorInteligente.comprimir`: compression level by data kind. -/
def nivel_compresion (tipo_dato : TipoDato) : Nat :=
  if tipo_dato = TipoDato.texto ∨ tipo_dato = TipoDato.json then 6 else 3

/-- `CompresorInteligente.comprimir` (the returned ratio is discarded by the
only caller and is not modelled). -/
def comprimir (datos : List Nat) (tipo_dato : TipoDato) : List Nat :=
  gzipCompress (nivel_compresion tipo_dato) datos

/-- `CompresorInteligente.descomprimir`. -/
def descomprimir (datos_comprimidos : List Nat) : List Nat :=
  gzipDecompress datos_comprimidos

/-! ### `CacheL1Memoria`: the in-memory LRU tier -/

/-- State of `CacheL1Memoria`.  `datos` is the `OrderedDict` in recency order
(head = least recently touched). -/
structure CacheL1 where
  capacidad_bytes : Int
  datos : List (String × PyVal)
  metadatos : List (String × Metadata)
  tamano_actual : Int
  deriving Repr

/-- `CacheL1Memoria._evict_lru`: drop the head (least recently used) entry. -/
def CacheL1.evict_lru (c : CacheL1) : CacheL1 :=
  match c.datos with
  | [] => c
  | (clave_lru, _) :: rest =>
    { c with
      datos := rest,
      metadatos := eraseA c.metadatos clave_lru,
      tamano_actual :=
        c.tamano_actual - ((lookupA c.metadatos clave_lru).map Metadata.tamano_bytes |>.getD 0) }

/-- The `while` loop inside `CacheL1Memoria.put`, with fuel equal to the
number of resident entries: every iteration evicts one entry, so this fuel
makes the structural recursion extensionally equal to the source's `while`
(after `datos.length` evictions the tier is empty and the loop condition is
false). -/
def CacheL1.evictFuel : Nat → CacheL1 → Int → CacheL1
  | 0, c, _ => c
  | fuel + 1, c, necesario =>
    if c.capacidad_bytes < c.tamano_actual + necesario ∧ c.datos ≠ [] then
      CacheL1.evictFuel fuel c.evict_lru necesario
    else c

/-- The `while` loop inside `CacheL1Memoria.put`: evict the single oldest
entry until the new entry fits or the tier is empty. -/
def CacheL1.evictLoop (c : CacheL1) (necesario : Int) : CacheL1 :=
  CacheL1.evictFuel c.datos.length c necesario

/-- `CacheL1Memoria.put`. -/
def CacheL1.put (c : CacheL1) (clave : String) (valor : PyVal) (metadata : Metadata) : CacheL1 :=
  let c1 :=
    if (lookupA c.datos clave).isSome then
      { c with
        tamano_actual :=
          c.tamano_actual - ((lookupA c.metadatos clave).map Metadata.tamano_bytes |>.getD 0),
        datos := eraseA c.datos clave,
        metadatos := eraseA c.metadatos clave }
    else c
  let c2 := c1.evictLoop metadata.tamano_bytes
  { c2 with
    datos := c2.datos ++ [(clave, valor)],
    metadatos := setA c2.metadatos clave metadata,
    tamano_actual := c2.tamano_actual + metadata.tamano_bytes }

/-- The access bump both tiers apply on a hit: refresh the access timestamp
and increment the access-frequency counter. -/
def bumpMd (md : Metadata) (now : Nat) : Metadata :=
  { md with timestamp_acceso := now, frecuencia_acceso := md.frecuencia_acceso + 1 }

/-- `CacheL1Memoria.get`: on hit, moves the entry to the back (most recent),
bumps its access metadata and returns value and updated metadata. -/
def CacheL1.get (c : CacheL1) (clave : String) (now : Nat) :
    Option ((PyVal × Metadata) × CacheL1) :=
  match lookupA c.datos clave with
  | some valor =>
    match lookupA c.metadatos clave with
    | some md =>
      let md' := bumpMd md now
      some ((valor, md'),
        { c with
          datos := eraseA c.datos clave ++ [(clave, valor)],
          metadatos := setA c.metadatos clave md' })
    | Option.none => Option.none
  | Option.none => Option.none

/-! ### `CacheL2Disco`: the disk tier -/

/-- State of `CacheL2Disco`: the value-blob files (`archivos`, one per key,
holding the pickled stored object) and the sidecar metadata index. -/
structure CacheL2 where
  capacidad_bytes : Int
  archivos : List (String × PyVal)
  metadatos : List (String × Metadata)
  deriving Repr

/-- `CacheL2Disco._calcular_tamano_actual`: total `st_size` of the `.cache`
files; a file holding `pickle.dump(v)` has size `pickleLen v`. -/
def CacheL2.calcular_tamano_actual (c : CacheL2) : Int :=
  c.archivos.foldl (fun acc p => acc + (pickleLen p.2 : Int)) 0

/-- The `min(..., key=timestamp_acceso)` scan: first key with minimal access
timestamp, in index iteration order (Python `min` keeps the first among ties). -/
def argminLoop (bk : String) (bts : Nat) : List (String × Metadata) → String
  | [] => bk
  | (k, md) :: rest =>
    if md.timestamp_acceso < bts then argminLoop k md.timestamp_acceso rest
    else argminLoop bk bts rest

/-- First key of minimal `timestamp_acceso` in the metadata index. -/
def argminAcceso : List (String × Metadata) → Option String
  | [] => Option.none
  | (k, md) :: rest => some (argminLoop k md.timestamp_acceso rest)

/-- `CacheL2Disco._eliminar_archivo`: unlink the blob file and drop the
metadata entry. -/
def CacheL2.eliminar_archivo (c : CacheL2) (clave : String) : CacheL2 :=
  { c with archivos := eraseA c.archivos clave, metadatos := eraseA c.metadatos clave }

/-- The `while` loop of `CacheL2Disco._limpiar_espacio`, with fuel equal to
the number of index entries (each iteration removes one, so this fuel makes
the recursion extensionally equal to the source's `while`). -/
def CacheL2.limpiarLoop : Nat → CacheL2 → Int → CacheL2
  | 0, c, _ => c
  | fuel + 1, c, bytes_necesarios =>
    if c.capacidad_bytes < c.calcular_tamano_actual + bytes_necesarios then
      match argminAcceso c.metadatos with
      | some mas_antiguo =>
        CacheL2.limpiarLoop fuel (c.eliminar_archivo mas_antiguo) bytes_necesarios
      | Option.none => c
    else c

/-- `CacheL2Disco._limpiar_espacio`. -/
def CacheL2.limpiar_espacio (c : CacheL2) (bytes_necesarios : Int) : CacheL2 :=
  CacheL2.limpiarLoop c.metadatos.length c bytes_necesarios

/-- `CacheL2Disco.put`: free space, write the blob file, update the index. -/
def CacheL2.put (c : CacheL2) (clave : String) (valor : PyVal) (metadata : Metadata) : CacheL2 :=
  let c1 := c.limpiar_espacio metadata.tamano_bytes
  { c1 with
    archivos := setA c1.archivos clave valor,
    metadatos := setA c1.metadatos clave metadata }

/-- `CacheL2Disco.get`: on hit (index entry and file both present), rebuilds
the metadata with bumped access time/frequency, persists the bump in the
index, and returns the pickled-in stored object with the bumped metadata. -/
def CacheL2.get (c : CacheL2) (clave : String) (now : Nat) :
    Option ((PyVal × Metadata) × CacheL2) :=
  match lookupA c.metadatos clave with
  | some meta =>
    match lookupA c.archivos clave with
    | some datos =>
      let metadata := bumpMd meta now
      some ((datos, metadata), { c with metadatos := setA c.metadatos clave metadata })
    | Option.none => Option.none
  | Option.none => Option.none

/-! ### `CacheMultinivel`: the orchestrating cache -/

/-- State of `CacheMultinivel`. -/
structure CacheMultinivel where
  cache_l1 : CacheL1
  cache_l2 : CacheL2
  habilitar_compresion : Bool
  estadisticas : EstadisticasCache
  deriving Repr

/-- Fresh `CacheMultinivel` (the source converts configured MB to bytes via
`int(mb * 1024 * 1024)`; capacities are given here directly in bytes). -/
def CacheMultinivel.init (l1_capacidad_bytes l2_capacidad_bytes : Int)
    (habilitar_compresion : Bool) : CacheMultinivel :=
  { cache_l1 :=
      { capacidad_bytes := l1_capacidad_bytes, datos := [], metadatos := [], tamano_actual := 0 },
    cache_l2 := { capacidad_bytes := l2_capacidad_bytes, archivos := [], metadatos := [] },
    habilitar_compresion := habilitar_compresion,
    estadisticas := {} }

/-- The fresh metadata record built at the top of `CacheMultinivel.put`. -/
def mdPut (clave : String) (valor : PyVal) (tipo_dato : TipoDato)
    (tiempo_computacion : Rat) (prioridad : Int) (now : Nat) : Metadata :=
  { clave := clave, tamano_bytes := (pickleLen valor : Int), tipo_dato := tipo_dato,
    timestamp_creacion := now, timestamp_acceso := now, frecuencia_acceso := 1,
    nivel_cache := NivelCache.l1_memoria, comprimido := false,
    checksum := pickleDumps valor, tiempo_computacion := tiempo_computacion,
    prioridad := prioridad }

/-- `CacheMultinivel.put`: small values (serialized size ≤ 10% of Tier-1
capacity, a float threshold modelled as `10 * t ≤ cap`) go to Tier-1; larger
values go to Tier-2, compressed first when compression is enabled. -/
def CacheMultinivel.put (c : CacheMultinivel) (clave : String) (valor : PyVal)
    (tipo_dato : TipoDato) (tiempo_computacion : Rat) (prioridad : Int) (now : Nat) :
    Bool × CacheMultinivel :=
  let datos_serializados := pickleDumps valor
  let tamano_original : Int := (pickleLen valor : Int)
  let metadata : Metadata := mdPut clave valor tipo_dato tiempo_computacion prioridad now
  if 10 * tamano_original ≤ c.cache_l1.capacidad_bytes then
    (true,
      { c with
        cache_l1 := c.cache_l1.put clave valor metadata,
        estadisticas :=
          { c.estadisticas with
            bytes_almacenados := c.estadisticas.bytes_almacenados + tamano_original } })
  else
    let par :=
      if c.habilitar_compresion then
        let datos_comprimidos := comprimir datos_serializados tipo_dato
        (PyVal.bytes datos_comprimidos,
          { metadata with
            comprimido := true, tamano_bytes := (datos_comprimidos.length : Int) })
      else (valor, metadata)
    let metadata2 := { par.2 with nivel_cache := NivelCache.l2_disco }
    (true,
      { c with
        cache_l2 := c.cache_l2.put clave par.1 metadata2,
        estadisticas :=
          { c.estadisticas with
            bytes_almacenados := c.estadisticas.bytes_almacenados + metadata2.tamano_bytes } })

/-- The Tier-2 hit post-processing of `CacheMultinivel.get`: decompress when
the entry is flagged compressed and the stored object is a bytes object;
`Option.none` models the `pickle.loads` raise (handled by the enclosing
`except`, which counts a miss). -/
def decodeStored (comprimido : Bool) (valor : PyVal) : Option PyVal :=
  match comprimido, valor with
  | true, PyVal.bytes bs => pickleLoads (descomprimir bs)
  | true, v => some v
  | false, v => some v

/-- `CacheMultinivel.get`: Tier-1 first; on Tier-1 miss, Tier-2 (hit
decompresses if needed and promotes to Tier-1 when size ≤ 5% of Tier-1
capacity — modelled as `20 * t ≤ cap` — and access frequency ≥ 3). -/
def CacheMultinivel.get (c : CacheMultinivel) (clave : String) (now : Nat) :
    Option PyVal × CacheMultinivel :=
  match c.cache_l1.get clave now with
  | some ((valor, _), l1') =>
    (some valor,
      { c with
        cache_l1 := l1',
        estadisticas := { c.estadisticas with hits_l1 := c.estadisticas.hits_l1 + 1 } })
  | Option.none =>
    match c.cache_l2.get clave now with
    | some ((valor, metadata), l2') =>
      let c1 :=
        { c with
          cache_l2 := l2',
          estadisticas := { c.estadisticas with hits_l2 := c.estadisticas.hits_l2 + 1 } }
      match decodeStored metadata.comprimido valor with
      | some valor' =>
        let c2 :=
          if 20 * metadata.tamano_bytes ≤ c1.cache_l1.capacidad_bytes ∧
              3 ≤ metadata.frecuencia_acceso then
            { c1 with cache_l1 := c1.cache_l1.put clave valor' metadata }
          else c1
        (some valor', c2)
      | Option.none =>
        (Option.none,
          { c1 with
            estadisticas := { c1.estadisticas with misses := c1.estadisticas.misses + 1 } })
    | Option.none =>
      (Option.none,
        { c with
          estadisticas := { c.estadisticas with misses := c.estadisticas.misses + 1 } })

/-- One iteration of the body of `CacheMultinivel._limpieza_automatica`. -/
def CacheMultinivel.limpiezaPaso (c : CacheMultinivel) : CacheMultinivel :=
  if c.cache_l1.datos ≠ [] then
    { c with
      cache_l1 := c.cache_l1.evict_lru,
      estadisticas := { c.estadisticas with evictions := c.estadisticas.evictions + 1 } }
  else c

/-- `CacheMultinivel._limpieza_automatica`: forcibly evict 25% of Tier-1's
oldest entries, counting each in the evictions statistic. -/
def CacheMultinivel.limpieza_automatica (c : CacheMultinivel) : CacheMultinivel :=
  (List.range (c.cache_l1.datos.length / 4)).foldl (fun s _ => s.limpiezaPaso) c

/-- `CacheMultinivel.limpiar_todo`: clear both tiers and reset statistics. -/
def CacheMultinivel.limpiar_todo (c : CacheMultinivel) : CacheMultinivel :=
  { c with
    cache_l1 := { c.cache_l1 with datos := [], metadatos := [], tamano_actual := 0 },
    cache_l2 := { c.cache_l2 with archivos := [], metadatos := [] },
    estadisticas := {} }

/-! ### Data model of `sistema_paralelizacion_ultraavanzado.py` -/

/-- `PrioridadTarea`: the four ordered priority levels. -/
inductive PrioridadTarea where
  | baja | normal | alta | critica
  deriving DecidableEq, Repr

/-- `EstadoTarea`: the task states. -/
inductive EstadoTarea where
  | pendiente | en_cola | en_proceso | completada | fallida | cancelada
  deriving DecidableEq, Repr

/-- Terminal task states (`Completed`, `Failed`, `Cancelled`) as named by the
specification. -/
def EstadoTarea.esTerminal : EstadoTarea → Bool
  | .completada | .fallida | .cancelada => true
  | _ => false

/-- `TipoWorker`: worker affinity tags. -/
inductive TipoWorker where
  | cpu_intensivo | io_intensivo | memoria_intensivo | general
  deriving DecidableEq, Repr

instance {ε α : Type} [DecidableEq ε] [DecidableEq α] : DecidableEq (Except ε α) := fun a b =>
  match a, b with
  | .ok x, .ok y =>
    if h : x = y then isTrue (by rw [h]) else isFalse (by intro hc; cases hc; exact h rfl)
  | .error x, .error y =>
    if h : x = y then isTrue (by rw [h]) else isFalse (by intro hc; cases hc; exact h rfl)
  | .ok _, .error _ => isFalse (by intro hc; cases hc)
  | .error _, .ok _ => isFalse (by intro hc; cases hc)

/-- `TareaParalelizacion`.  The pair `funcion`/`args`/`kwargs` is modelled by
`trabajo`, the deferred computation's outcome: the value the work function
returns, or the exception message it raises.  `retries` and `dependencias`
are stored but never acted on, exactly as in the source. -/
structure Tarea where
  id : String
  trabajo : Except String PyVal
  prioridad : PrioridadTarea
  tipo_worker : TipoWorker := TipoWorker.general
  timeout : Rat := 300
  retries : Nat := 3
  dependencias : List String := []
  timestamp_creacion : Nat
  timestamp_inicio : Option Nat := Option.none
  timestamp_finalizacion : Option Nat := Option.none
  estado : EstadoTarea := EstadoTarea.pendiente
  resultado : Option PyVal := Option.none
  error : Option String := Option.none
  deriving DecidableEq, Repr

/-! `queue.PriorityQueue` holds `(-creation_timestamp, task_id)` pairs and
always pops the smallest pair under Python tuple (lexicographic) order. -/

/-- The smallest `(neg_timestamp, id)` pair under Python tuple order. -/
def minEntry : List (Int × String) → Option (Int × String)
  | [] => Option.none
  | e :: rest =>
    some (rest.foldl (fun b x => if x.1 < b.1 ∨ (x.1 = b.1 ∧ x.2 < b.2) then x else b) e)

/-- Remove one occurrence of an entry. -/
def removeEntry : List (Int × String) → (Int × String) → List (Int × String)
  | [], _ => []
  | x :: rest, e => if x = e then rest else x :: removeEntry rest e

/-- `PriorityQueue.get`: pop the minimal pair. -/
def popMin (l : List (Int × String)) : Option ((Int × String) × List (Int × String)) :=
  match minEntry l with
  | some e => some (e, removeEntry l e)
  | Option.none => Option.none

/-- State of `QueueInteligente`: the task registry (a dict that nothing ever
removes entries from) and one priority queue per level. -/
structure QueueInteligente where
  max_size : Nat
  tareas : List (String × Tarea) := []
  cola_critica : List (Int × String) := []
  cola_alta : List (Int × String) := []
  cola_normal : List (Int × String) := []
  cola_baja : List (Int × String) := []
  deriving Repr

/-- `QueueInteligente.agregar_tarea`: reject when a positive `max_size` is
already reached by `len(self.tareas)`; otherwise register the task, push
`(-creation_timestamp, id)` into its priority bucket and mark it `EN_COLA`
(the state is set on the shared task object, hence also on the registered
one). -/
def QueueInteligente.agregar_tarea (q : QueueInteligente) (tarea : Tarea) :
    Bool × QueueInteligente :=
  if 0 < q.max_size ∧ q.max_size ≤ q.tareas.length then
    (false, q)
  else
    let t' := { tarea with estado := EstadoTarea.en_cola }
    let entry : Int × String := (-(tarea.timestamp_creacion : Int), tarea.id)
    let q1 := { q with tareas := setA q.tareas tarea.id t' }
    let q2 :=
      match tarea.prioridad with
      | .critica => { q1 with cola_critica := q1.cola_critica ++ [entry] }
      | .alta => { q1 with cola_alta := q1.cola_alta ++ [entry] }
      | .normal => { q1 with cola_normal := q1.cola_normal ++ [entry] }
      | .baja => { q1 with cola_baja := q1.cola_baja ++ [entry] }
    (true, q2)

/-- One priority level of `QueueInteligente.obtener_tarea`: if the bucket is
non-empty, pop its minimal pair (the pop persists even when the id is no
longer wanted); if the popped id is registered, mark the task `EN_PROCESO`,
stamp its start time and return it, else fall through to the next level. -/
def procesarBucket (tareas : List (String × Tarea)) (bucket : List (Int × String)) (now : Nat) :
    Option Tarea × List (Int × String) × List (String × Tarea) :=
  match popMin bucket with
  | some ((_, tarea_id), rest) =>
    match lookupA tareas tarea_id with
    | some t =>
      let t' := { t with estado := EstadoTarea.en_proceso, timestamp_inicio := some now }
      (some t', rest, setA tareas tarea_id t')
    | Option.none => (Option.none, rest, tareas)
  | Option.none => (Option.none, bucket, tareas)

/-- `QueueInteligente.obtener_tarea`: scan `CRITICA → ALTA → NORMAL → BAJA`. -/
def QueueInteligente.obtener_tarea (q : QueueInteligente) (now : Nat) :
    Option Tarea × QueueInteligente :=
  let r1 := procesarBucket q.tareas q.cola_critica now
  let q1 := { q with cola_critica := r1.2.1, tareas := r1.2.2 }
  match r1.1 with
  | some t => (some t, q1)
  | Option.none =>
    let r2 := procesarBucket q1.tareas q1.cola_alta now
    let q2 := { q1 with cola_alta := r2.2.1, tareas := r2.2.2 }
    match r2.1 with
    | some t => (some t, q2)
    | Option.none =>
      let r3 := procesarBucket q2.tareas q2.cola_normal now
      let q3 := { q2 with cola_normal := r3.2.1, tareas := r3.2.2 }
      match r3.1 with
      | some t => (some t, q3)
      | Option.none =>
        let r4 := procesarBucket q3.tareas q3.cola_baja now
        let q4 := { q3 with cola_baja := r4.2.1, tareas := r4.2.2 }
        match r4.1 with
        | some t => (some t, q4)
        | Option.none => (Option.none, q4)

/-- `QueueInteligente.cancelar_tarea`: mark any registered task `CANCELADA`
(no check of its current state) and return `true`; `false` only for unknown
ids. -/
def QueueInteligente.cancelar_tarea (q : QueueInteligente) (tarea_id : String) (now : Nat) :
    Bool × QueueInteligente :=
  match lookupA q.tareas tarea_id with
  | some t =>
    let t' := { t with estado := EstadoTarea.cancelada, timestamp_finalizacion := some now }
    (true, { q with tareas := setA q.tareas tarea_id t' })
  | Option.none => (false, q)

/-- Number of registered tasks in a non-terminal state (the specification's
"outstanding" tasks). -/
def QueueInteligente.tareasNoTerminales (q : QueueInteligente) : Nat :=
  (q.tareas.filter (fun p => !p.2.estado.esTerminal)).length

/-- State of `SistemaParalelizacionUltraAvanzado`.  The worker pool, load
balancer and psutil metrics do not affect task/cache state and are outside
the modelled fragment.  `ejecuciones` is an observation counter of work-body
executions (`executor.submit(tarea.funcion, ...)`), present so theorems can
state that the work function is or is not executed; it shadows no source
variable. -/
structure Sistema where
  cache : CacheMultinivel
  queue_inteligente : QueueInteligente
  tareas_totales : Nat := 0
  tareas_pendientes : Int := 0
  tareas_completadas : Nat := 0
  tareas_fallidas : Nat := 0
  ejecuciones : Nat := 0
  deriving Repr

/-- `SistemaParalelizacionUltraAvanzado.submit_tarea`.  The generated
`tarea_id` (wall-clock microseconds plus an argument hash in the source) is
taken as a parameter; the task's cache key is `"tarea_" ++ id ++
"_resultado"`.  A cached result that is not Python `None` short-circuits to a
`COMPLETADA` task that is returned without being queued; note that a cache
miss and a cached `None` are the same observable (`resultado_cached is not
None`).  On queue rejection the source raises; this is the `Except.error`
result. -/
def Sistema.submit_tarea (s : Sistema) (tarea_id : String) (trabajo : Except String PyVal)
    (prioridad : PrioridadTarea) (now : Nat) : Except String Tarea × Sistema :=
  let tarea : Tarea :=
    { id := tarea_id, trabajo := trabajo, prioridad := prioridad, timestamp_creacion := now }
  let cache_key := "tarea_" ++ tarea_id ++ "_resultado"
  let gr := s.cache.get cache_key now
  let resultado_cached : PyVal := gr.1.getD PyVal.none
  let s1 := { s with cache := gr.2 }
  if resultado_cached ≠ PyVal.none then
    (Except.ok
      { tarea with
        estado := EstadoTarea.completada, resultado := some resultado_cached,
        timestamp_finalizacion := some now }, s1)
  else
    let ar := s1.queue_inteligente.agregar_tarea tarea
    if ar.1 then
      (Except.ok { tarea with estado := EstadoTarea.en_cola },
        { s1 with
          queue_inteligente := ar.2,
          tareas_totales := s1.tareas_totales + 1,
          tareas_pendientes := s1.tareas_pendientes + 1 })
    else
      (Except.error "No se pudo agregar tarea a la cola", { s1 with queue_inteligente := ar.2 })

/-- `SistemaParalelizacionUltraAvanzado._procesar_tarea_en_worker`: execute
the work body (counted in `ejecuciones`); on success store the result in the
cache under the task's cache key and mark `COMPLETADA`, on exception mark
`FALLIDA` with the message; either way the shared task object — hence the
registry entry — is updated and the system counters adjusted.  Worker-metric
bookkeeping does not affect this state and is not modelled. -/
def Sistema.procesar_tarea_en_worker (s : Sistema) (tarea : Tarea) (now : Nat) : Sistema :=
  let s0 := { s with ejecuciones := s.ejecuciones + 1 }
  match tarea.trabajo with
  | Except.ok resultado =>
    let cache_key := "tarea_" ++ tarea.id ++ "_resultado"
    let pr := s0.cache.put cache_key resultado TipoDato.json (1 / 10 : Rat) 5 now
    let t' :=
      { tarea with
        estado := EstadoTarea.completada, resultado := some resultado,
        timestamp_finalizacion := some now }
    { s0 with
      cache := pr.2,
      queue_inteligente :=
        { s0.queue_inteligente with
          tareas := setA s0.queue_inteligente.tareas tarea.id t' },
      tareas_completadas := s0.tareas_completadas + 1,
      tareas_pendientes := s0.tareas_pendientes - 1 }
  | Except.error e =>
    let t' :=
      { tarea with
        estado := EstadoTarea.fallida, error := some e,
        timestamp_finalizacion := some now }
    { s0 with
      queue_inteligente :=
        { s0.queue_inteligente with
          tareas := setA s0.queue_inteligente.tareas tarea.id t' },
      tareas_fallidas := s0.tareas_fallidas + 1,
      tareas_pendientes := s0.tareas_pendientes - 1 }

/-- One dispatch step of `_procesar_tareas_pendientes`: dequeue the next
ready task and run it on a worker. -/
def Sistema.paso (s : Sistema) (now : Nat) : Sistema :=
  let r := s.queue_inteligente.obtener_tarea now
  match r.1 with
  | some tarea => Sistema.procesar_tarea_en_worker { s with queue_inteligente := r.2 } tarea now
  | Option.none => { s with queue_inteligente := r.2 }

/-! ### Concrete scenarios used by counterexamples and witnesses -/

/-- A normal-priority task whose work returns Python `None`. -/
def tareaBase (tid : String) (ts : Nat) : Tarea :=
  { id := tid, trabajo := Except.ok PyVal.none, prioridad := PrioridadTarea.normal,
    timestamp_creacion := ts }

/-- Unbounded queue (`QueueInteligente(0)`), two same-priority tasks added in
creation order. -/
def c2_q2 : QueueInteligente :=
  (((QueueInteligente.agregar_tarea { max_size := 0 } (tareaBase "A" 1)).2).agregar_tarea
    (tareaBase "B" 2)).2

/-- Queue holding only task `A`, queued. -/
def c4_q1 : QueueInteligente :=
  (QueueInteligente.agregar_tarea { max_size := 0 } (tareaBase "A" 1)).2

/-- `A` cancelled while still queued (its bucket entry survives). -/
def c4_cancelada : QueueInteligente := (c4_q1.cancelar_tarea "A" 2).2

/-- `A` dequeued, hence `EN_PROCESO`. -/
def c4_running : QueueInteligente := (c4_q1.obtener_tarea 2).2

/-- A task already in the terminal `COMPLETADA` state. -/
def c6_terminada : Tarea :=
  { tareaBase "t0" 0 with estado := EstadoTarea.completada }

/-- Queue with `max_size = 1` whose registry holds one terminal task. -/
def c6_q : QueueInteligente := { max_size := 1, tareas := [("t0", c6_terminada)] }

/-- Fresh scheduler over a fresh cache (Tier-1 1000 bytes, Tier-2 10000
bytes, compression on, queue bound 1000 as in the default configuration). -/
def c1_s0 : Sistema :=
  { cache := CacheMultinivel.init 1000 10000 true, queue_inteligente := { max_size := 1000 } }

/-- Submit task `t` whose work returns `None`, then let the control loop
process it (completing it and caching the `None` result). -/
def c1_s2 : Sistema :=
  ((c1_s0.submit_tarea "t" (Except.ok PyVal.none) PrioridadTarea.normal 1).2).paso 2

/-- Resubmission of the same cache key after completion. -/
def c1_resub : Except String Tarea × Sistema :=
  c1_s2.submit_tarea "t" (Except.ok PyVal.none) PrioridadTarea.normal 3

/-- Same flow for a task `u` whose work returns `7` (a non-`None` result). -/
def c1_s2u : Sistema :=
  ((c1_s0.submit_tarea "u" (Except.ok (PyVal.nat 7)) PrioridadTarea.normal 1).2).paso 2

/-- Cache with 100-byte Tier-1, 1000-byte Tier-2, compression enabled. -/
def c3_cache0 : CacheMultinivel := CacheMultinivel.init 100 1000 true

/-- `put` of a 21-byte value (too big for Tier-1) that compresses to 5 bytes,
followed by two `get`s; the second `get` reaches access frequency 3 and
promotes. -/
def c3_cache3 : CacheMultinivel :=
  ((((c3_cache0.put "k" (PyVal.blob 20) TipoDato.binario 0 5 1).2).get "k" 2).2.get "k" 3).2

/-- The C5 scenario: Tier-1 1MB (so 1MB values route to Tier-2), Tier-2
(capacity tier) 10MB, compression off; eleven puts of values whose
serialized size is exactly 1MB, at strictly ascending times. -/
def c5_final : CacheMultinivel :=
  ([("k01", 1), ("k02", 2), ("k03", 3), ("k04", 4), ("k05", 5), ("k06", 6), ("k07", 7),
    ("k08", 8), ("k09", 9), ("k10", 10), ("k11", 11)] : List (String × Nat)).foldl
    (fun s p => (s.put p.1 (PyVal.blob 1048575) TipoDato.binario 0 5 p.2).2)
    (CacheMultinivel.init 1048576 10485760 false)

/-- Put a small value for `k` (routes to Tier-1), then a large value for the
same key (routes to Tier-2, leaving the Tier-1 copy in place). -/
def c7_shadow : CacheMultinivel :=
  ((((CacheMultinivel.init 100 1000 true).put "k" (PyVal.nat 5) TipoDato.json 0 5 1).2).put
    "k" (PyVal.blob 20) TipoDato.binario 0 5 2).2

/-- Tier-1 store filled exactly to capacity by two one-byte entries. -/
def c8_md (k : String) (ts : Nat) : Metadata :=
  { clave := k, tamano_bytes := 1, tipo_dato := TipoDato.json, timestamp_creacion := ts,
    timestamp_acceso := ts, frecuencia_acceso := 1, nivel_cache := NivelCache.l1_memoria,
    comprimido := false, checksum := [], tiempo_computacion := 0, prioridad := 5 }

/-- Concrete full Tier-1 store: capacity 2 bytes, entries `a` then `b`. -/
def c8_l1 : CacheL1 :=
  { capacidad_bytes := 2,
    datos := [("a", PyVal.nat 0), ("b", PyVal.nat 1)],
    metadatos := [("a", c8_md "a" 1), ("b", c8_md "b" 2)],
    tamano_actual := 2 }

/-- Tier-2-resident entry: 5 recorded bytes (≤ 5% of the 100-byte Tier-1
capacity), access frequency 3, stored uncompressed. -/
def c9_md : Metadata :=
  { clave := "kk", tamano_bytes := 5, tipo_dato := TipoDato.binario, timestamp_creacion := 0,
    timestamp_acceso := 1, frecuencia_acceso := 3, nivel_cache := NivelCache.l2_disco,
    comprimido := false, checksum := [], tiempo_computacion := 0, prioridad := 5 }

/-- Multi-tier cache whose Tier-2 holds `kk` as in `c9_md`. -/
def c9_state : CacheMultinivel :=
  { cache_l1 := { capacidad_bytes := 100, datos := [], metadatos := [], tamano_actual := 0 },
    cache_l2 :=
      { capacidad_bytes := 1000, archivos := [("kk", PyVal.nat 7)],
        metadatos := [("kk", c9_md)] },
    habilitar_compresion := true, estadisticas := {} }

/-- The result of `c8_l1.get "a" 9`, spelled out. -/
def c8_get_res : (PyVal × Metadata) × CacheL1 :=
  ((PyVal.nat 0, bumpMd (c8_md "a" 1) 9),
    { c8_l1 with
      datos := eraseA c8_l1.datos "a" ++ [("a", PyVal.nat 0)],
      metadatos := setA c8_l1.metadatos "a" (bumpMd (c8_md "a" 1) 9) })

/-! ### Library-model and association-list lemmas -/

theorem pickleLen_eq_length_dumps (v : PyVal) : pickleLen v = (pickleDumps v).length := by
  cases v <;> simp [pickleLen, pickleDumps]

theorem pickleLoads_pickleDumps (v : PyVal) : pickleLoads (pickleDumps v) = some v := by
  cases v <;> simp [pickleDumps, pickleLoads]

theorem rleExpand_rle (bs : List Nat) : rleExpand (rle bs) = bs := by
  induction bs with
  | nil => rfl
  | cons x xs ih =>
    simp only [rle]
    cases hr : rle xs with
    | nil =>
      have hxs : xs = [] := by simpa [hr, rleExpand] using ih.symm
      subst hxs
      simp [rleExpand]
    | cons p rest =>
      obtain ⟨y, c⟩ := p
      by_cases hxy : x = y
      · subst hxy
        simp only [if_pos rfl]
        simp [hr, rleExpand, List.replicate_succ] at ih ⊢
        exact ih
      · simp only [if_neg hxy]
        simp [hr, rleExpand] at ih ⊢
        exact ih

theorem unflattenPairs_flattenPairs (ps : List (Nat × Nat)) :
    unflattenPairs (flattenPairs ps) = ps := by
  induction ps with
  | nil => rfl
  | cons p rest ih => obtain ⟨v, c⟩ := p; simp [flattenPairs, unflattenPairs, ih]

theorem gzipDecompress_gzipCompress (level : Nat) (bs : List Nat) :
    gzipDecompress (gzipCompress level bs) = bs := by
  simp [gzipCompress, gzipDecompress, unflattenPairs_flattenPairs, rleExpand_rle]

theorem lookupA_setA_self {α : Type} (l : List (String × α)) (k : String) (v : α) :
    lookupA (setA l k v) k = some v := by
  induction l with
  | nil => simp [setA, lookupA]
  | cons p rest ih =>
    obtain ⟨k', v'⟩ := p
    by_cases h : k' = k
    · simp [setA, h, lookupA]
    · simp [setA, h, lookupA, ih]

theorem lookupA_setA_other {α : Type} (l : List (String × α)) (k k' : String) (v : α)
    (h : k ≠ k') : lookupA (setA l k v) k' = lookupA l k' := by
  induction l with
  | nil => simp [setA, lookupA, h]
  | cons p rest ih =>
    obtain ⟨k'', v''⟩ := p
    by_cases h2 : k'' = k
    · subst h2
      simp [setA, lookupA, h]
    · simp [setA, h2, lookupA]
      by_cases h3 : k'' = k'
      · simp [h3]
      · simp [h3, ih]

theorem lookupA_append_of_not_left {α : Type} (l l' : List (String × α)) (k : String)
    (h : lookupA l k = Option.none) : lookupA (l ++ l') k = lookupA l' k := by
  induction l with
  | nil => simp
  | cons p rest ih =>
    obtain ⟨k', v⟩ := p
    by_cases hk : k' = k
    · simp [lookupA, hk] at h
    · simp [lookupA, hk] at h ⊢
      exact ih h

theorem lookupA_eraseA_of_none {α : Type} (l : List (String × α)) (k k' : String)
    (h : lookupA l k' = Option.none) : lookupA (eraseA l k) k' = Option.none := by
  induction l with
  | nil => simp [eraseA, lookupA]
  | cons p rest ih =>
    obtain ⟨k'', v⟩ := p
    by_cases hk : k'' = k
    · simp [lookupA, eraseA, hk] at h ⊢
      split at h
      · exact absurd h (by simp)
      · exact h
    · simp [eraseA, hk]
      simp [lookupA] at h ⊢
      split at h
      · exact absurd h (by simp)
      · rename_i h2
        simp [h2]
        exact ih h

/-! ### Helper lemmas about the Tier-1 store -/

theorem evict_lru_capacidad (c : CacheL1) : c.evict_lru.capacidad_bytes = c.capacidad_bytes := by
  unfold CacheL1.evict_lru
  cases hd : c.datos with
  | nil => rfl
  | cons p rest => obtain ⟨k0, v0⟩ := p; rfl

theorem evict_lru_datos_none (c : CacheL1) (k : String)
    (h : lookupA c.datos k = Option.none) :
    lookupA c.evict_lru.datos k = Option.none := by
  unfold CacheL1.evict_lru
  cases hd : c.datos with
  | nil => rw [hd] at h ⊢; exact h
  | cons p rest =>
    obtain ⟨k0, v0⟩ := p
    rw [hd] at h
    by_cases hk : k0 = k
    · simp [lookupA, hk] at h
    · simp [lookupA, hk] at h
      simpa using h

theorem evict_lru_datos_length (c : CacheL1) (h : c.datos ≠ []) :
    c.evict_lru.datos.length + 1 = c.datos.length := by
  unfold CacheL1.evict_lru
  cases hd : c.datos with
  | nil => exact absurd hd h
  | cons p rest => obtain ⟨k0, v0⟩ := p; simp [hd]

theorem evictLoop_stop (c : CacheL1) (n : Int)
    (h : ¬(c.capacidad_bytes < c.tamano_actual + n ∧ c.datos ≠ [])) :
    c.evictLoop n = c := by
  unfold CacheL1.evictLoop
  cases hl : c.datos.length with
  | zero => rfl
  | succ m =>
    unfold CacheL1.evictFuel
    exact if_neg h

theorem evictLoop_step (c : CacheL1) (n : Int)
    (h : c.capacidad_bytes < c.tamano_actual + n ∧ c.datos ≠ []) :
    c.evictLoop n = c.evict_lru.evictLoop n := by
  unfold CacheL1.evictLoop
  have hlen : c.evict_lru.datos.length + 1 = c.datos.length := evict_lru_datos_length c h.2
  rw [← hlen]
  show (if c.capacidad_bytes < c.tamano_actual + n ∧ c.datos ≠ [] then
      CacheL1.evictFuel c.evict_lru.datos.length c.evict_lru n
    else c) = CacheL1.evictFuel c.evict_lru.datos.length c.evict_lru n
  exact if_pos h

theorem evictFuel_datos_none (fuel : Nat) : ∀ (c : CacheL1) (n : Int) (k : String),
    lookupA c.datos k = Option.none →
    lookupA (CacheL1.evictFuel fuel c n).datos k = Option.none := by
  induction fuel with
  | zero => intro c n k h; exact h
  | succ m ih =>
    intro c n k h
    unfold CacheL1.evictFuel
    split
    · exact ih _ _ _ (evict_lru_datos_none c k h)
    · exact h

theorem evictLoop_datos_none (c : CacheL1) (n : Int) (k : String) :
    lookupA c.datos k = Option.none → lookupA (c.evictLoop n).datos k = Option.none :=
  evictFuel_datos_none c.datos.length c n k

theorem evictFuel_capacidad (fuel : Nat) : ∀ (c : CacheL1) (n : Int),
    (CacheL1.evictFuel fuel c n).capacidad_bytes = c.capacidad_bytes := by
  induction fuel with
  | zero => intro c n; rfl
  | succ m ih =>
    intro c n
    unfold CacheL1.evictFuel
    split
    · rw [ih, evict_lru_capacidad]
    · rfl

theorem evictFuel_post (fuel : Nat) : ∀ (c : CacheL1) (n : Int), c.datos.length ≤ fuel →
    (CacheL1.evictFuel fuel c n).tamano_actual + n ≤ c.capacidad_bytes ∨
    (CacheL1.evictFuel fuel c n).datos = [] := by
  induction fuel with
  | zero =>
    intro c n hle
    right
    exact List.length_eq_zero.mp (Nat.le_zero.mp hle)
  | succ m ih =>
    intro c n hle
    unfold CacheL1.evictFuel
    split
    · rename_i hcond
      have hlen : c.evict_lru.datos.length ≤ m := by
        have := evict_lru_datos_length c hcond.2
        omega
      rcases ih c.evict_lru n hlen with h1 | h1
      · left
        rw [evict_lru_capacidad] at h1
        exact h1
      · right
        exact h1
    · rename_i hcond
      rcases Classical.em (c.capacidad_bytes < c.tamano_actual + n) with hA | hA
      · right
        rcases not_and_or.mp hcond with hB | hB
        · exact absurd hA hB
        · simpa using hB
      · left
        omega

theorem evictLoop_post (c : CacheL1) (n : Int) :
    (c.evictLoop n).tamano_actual + n ≤ c.capacidad_bytes ∨ (c.evictLoop n).datos = [] :=
  evictFuel_post c.datos.length c n (Nat.le_refl _)

theorem CacheL1.l1_put_lookups (c : CacheL1) (k : String) (v : PyVal) (md : Metadata)
    (h : lookupA c.datos k = Option.none) :
    lookupA (c.put k v md).datos k = some v ∧
    lookupA (c.put k v md).metadatos k = some md := by
  unfold CacheL1.put
  simp only [h, Option.isSome_none, Bool.false_eq_true, if_false]
  refine ⟨?_, ?_⟩
  · rw [lookupA_append_of_not_left _ _ _ (evictLoop_datos_none c md.tamano_bytes k h)]
    simp [lookupA]
  · exact lookupA_setA_self _ _ _

theorem CacheL1.l1_get_hit (c : CacheL1) (k : String) (now : Nat) (v : PyVal) (md : Metadata)
    (h1 : lookupA c.datos k = some v) (h2 : lookupA c.metadatos k = some md) :
    c.get k now =
      some ((v, bumpMd md now),
        { c with
          datos := eraseA c.datos k ++ [(k, v)],
          metadatos := setA c.metadatos k (bumpMd md now) }) := by
  unfold CacheL1.get
  rw [h1, h2]

theorem CacheL1.l1_get_miss (c : CacheL1) (k : String) (now : Nat)
    (h : lookupA c.datos k = Option.none) : c.get k now = Option.none := by
  unfold CacheL1.get
  rw [h]

/-! ### Helper lemmas about the Tier-2 store -/

theorem CacheL2.l2_put_lookups (c : CacheL2) (k : String) (v : PyVal) (md : Metadata) :
    lookupA (c.put k v md).archivos k = some v ∧
    lookupA (c.put k v md).metadatos k = some md := by
  unfold CacheL2.put
  exact ⟨lookupA_setA_self _ _ _, lookupA_setA_self _ _ _⟩

theorem CacheL2.l2_get_hit (c : CacheL2) (k : String) (now : Nat) (md : Metadata) (v : PyVal)
    (h1 : lookupA c.metadatos k = some md) (h2 : lookupA c.archivos k = some v) :
    c.get k now =
      some ((v, bumpMd md now), { c with metadatos := setA c.metadatos k (bumpMd md now) }) := by
  unfold CacheL2.get
  rw [h1, h2]

theorem CacheL2.l2_get_put_self (c : CacheL2) (k : String) (v : PyVal) (md : Metadata) (now : Nat) :
    (c.put k v md).get k now =
      some ((v, bumpMd md now),
        { c.put k v md with metadatos := setA (c.put k v md).metadatos k (bumpMd md now) }) := by
  obtain ⟨ha, hm⟩ := CacheL2.l2_put_lookups c k v md
  exact CacheL2.l2_get_hit _ _ _ _ _ hm ha

/-! ### Helper lemmas about the orchestrating cache -/

/-- Behaviour of `CacheMultinivel.get` on a Tier-1 miss that hits Tier-2 and
meets the promotion conditions (size ≤ 5% of Tier-1 capacity, bumped access
frequency ≥ 3): the decoded value is returned, the entry is put into Tier-1,
and the Tier-2 index keeps the entry with bumped metadata. -/
theorem get_promotes (c : CacheMultinivel) (k : String) (md : Metadata) (stored v : PyVal)
    (now : Nat)
    (hL1 : lookupA c.cache_l1.datos k = Option.none)
    (hmd : lookupA c.cache_l2.metadatos k = some md)
    (harch : lookupA c.cache_l2.archivos k = some stored)
    (hdec : decodeStored md.comprimido stored = some v)
    (hsize : 20 * md.tamano_bytes ≤ c.cache_l1.capacidad_bytes)
    (hfreq : 2 ≤ md.frecuencia_acceso) :
    c.get k now =
      (some v,
        { c with
          cache_l1 := c.cache_l1.put k v (bumpMd md now),
          cache_l2 :=
            { c.cache_l2 with metadatos := setA c.cache_l2.metadatos k (bumpMd md now) },
          estadisticas := { c.estadisticas with hits_l2 := c.estadisticas.hits_l2 + 1 } }) := by
  unfold CacheMultinivel.get
  simp only [CacheL1.l1_get_miss _ _ _ hL1, CacheL2.l2_get_hit _ _ _ _ _ hmd harch]
  have hdec2 : decodeStored (bumpMd md now).comprimido stored = some v := by
    simpa [bumpMd] using hdec
  simp only [hdec2]
  have hcond : 20 * (bumpMd md now).tamano_bytes ≤ c.cache_l1.capacidad_bytes ∧
      3 ≤ (bumpMd md now).frecuencia_acceso := by
    refine ⟨by simpa [bumpMd] using hsize, by simp only [bumpMd]; omega⟩
  simp only [bumpMd] at hcond ⊢
  simp only [hcond, and_self, if_pos, if_true]

/-- After the eviction loop, either the pending insertion fits the byte
budget or the tier has been emptied so the inserted entry stands alone. -/
theorem put_fits_or_alone (c1 : CacheL1) (k : String) (v : PyVal) (md : Metadata) :
    (c1.evictLoop md.tamano_bytes).tamano_actual + md.tamano_bytes ≤ c1.capacidad_bytes ∨
    (c1.evictLoop md.tamano_bytes).datos ++ [(k, v)] = [(k, v)] := by
  rcases evictLoop_post c1 md.tamano_bytes with h | h
  · left
    exact h
  · right
    rw [h]
    rfl

/-! ### Helper lemmas about the task queue -/

/-- Any task returned by one priority level of the dequeue scan has been
marked `EN_PROCESO`, with no precondition on its previous state. -/
theorem procesarBucket_estado (tareas : List (String × Tarea)) (bucket : List (Int × String))
    (now : Nat) (t : Tarea) (hpb : (procesarBucket tareas bucket now).1 = some t) :
    t.estado = EstadoTarea.en_proceso := by
  unfold procesarBucket at hpb
  split at hpb
  · rename_i pr rest hpop
    split at hpb
    · rename_i t0 hlk
      simp only [Option.some_inj] at hpb
      rw [← hpb]
    · simp at hpb
  · simp at hpb

/-- Any task returned by `obtener_tarea` has been marked `EN_PROCESO`, with
no precondition on its previous state. -/
theorem obtener_tarea_estado (q : QueueInteligente) (now : Nat) (t : Tarea)
    (h : (q.obtener_tarea now).1 = some t) : t.estado = EstadoTarea.en_proceso := by
  unfold QueueInteligente.obtener_tarea at h
  dsimp only at h
  split at h
  · rename_i t1 h1
    simp only [Option.some_inj] at h
    rw [← h]
    exact procesarBucket_estado _ _ _ _ h1
  · split at h
    · rename_i t2 h2
      simp only [Option.some_inj] at h
      rw [← h]
      exact procesarBucket_estado _ _ _ _ h2
    · split at h
      · rename_i t3 h3
        simp only [Option.some_inj] at h
        rw [← h]
        exact procesarBucket_estado _ _ _ _ h3
      · split at h
        · rename_i t4 h4
          simp only [Option.some_inj] at h
          rw [← h]
          exact procesarBucket_estado _ _ _ _ h4
        · simp at h

/-! ### Claim C1: task-level memoization -/

/-- C1, counterexample.  The claim says a second `submit_tarea` with the same
cache key, after the first submission completed, returns a `COMPLETADA` task
with the cached value and does not execute the work function again.  For a
work function returning Python `None` this fails: the cached `None` is
indistinguishable from a cache miss (`resultado_cached is not None`), so the
resubmission is queued (`EN_COLA`, not `COMPLETADA`) and a further dispatch
step executes the work body a second time (`ejecuciones` reaches 2). -/
theorem C1_counterexample :
    c1_resub.1.toOption.map Tarea.estado = some EstadoTarea.en_cola ∧
    EstadoTarea.en_cola ≠ EstadoTarea.completada ∧
    c1_s2.ejecuciones = 1 ∧
    (c1_resub.2.paso 4).ejecuciones = 2 := by
  refine ⟨by rfl, by decide, by rfl, by rfl⟩

/-- C1, amended: task-level memoization holds exactly when the cached result
is not Python `None`.  If the cache holds `v ≠ None` under the task's cache
key (as it does after a first submission with a non-`None` result
completes), `submit_tarea` with that cache key returns a `COMPLETADA` task
carrying `v` immediately, leaves the queue untouched (so the task is never
dispatched) and does not execute the work function. -/
theorem C1_theorem (s : Sistema) (tarea_id : String) (trabajo : Except String PyVal)
    (prioridad : PrioridadTarea) (now : Nat) (v : PyVal)
    (hget : ((s.cache.get ("tarea_" ++ tarea_id ++ "_resultado") now).1).getD PyVal.none = v)
    (hv : v ≠ PyVal.none) :
    (s.submit_tarea tarea_id trabajo prioridad now).1 =
      Except.ok
        { id := tarea_id, trabajo := trabajo, prioridad := prioridad,
          timestamp_creacion := now, estado := EstadoTarea.completada,
          resultado := some v, timestamp_finalizacion := some now } ∧
    (s.submit_tarea tarea_id trabajo prioridad now).2.queue_inteligente =
      s.queue_inteligente ∧
    (s.submit_tarea tarea_id trabajo prioridad now).2.ejecuciones = s.ejecuciones := by
  unfold Sistema.submit_tarea
  dsimp only
  rw [hget, if_pos hv]
  exact ⟨rfl, rfl, rfl⟩

/-- C1, witness: after task `u` (result `7`) completes, resubmitting the
same cache key short-circuits to a completed task without touching the
queue or executing anything. -/
theorem C1_witness :
    (c1_s2u.submit_tarea "u" (Except.ok (PyVal.nat 7)) PrioridadTarea.normal 3).1 =
      Except.ok
        { id := "u", trabajo := Except.ok (PyVal.nat 7), prioridad := PrioridadTarea.normal,
          timestamp_creacion := 3, estado := EstadoTarea.completada,
          resultado := some (PyVal.nat 7), timestamp_finalizacion := some 3 } ∧
    (c1_s2u.submit_tarea "u" (Except.ok (PyVal.nat 7)) PrioridadTarea.normal 3).2.queue_inteligente =
      c1_s2u.queue_inteligente ∧
    (c1_s2u.submit_tarea "u" (Except.ok (PyVal.nat 7)) PrioridadTarea.normal 3).2.ejecuciones =
      c1_s2u.ejecuciones :=
  C1_theorem c1_s2u "u" (Except.ok (PyVal.nat 7)) PrioridadTarea.normal 3 (PyVal.nat 7)
    (by rfl) (by decide)

/-! ### Claim C2: FIFO within a priority bucket -/

/-- C2: the claim (and the source's own comment, "usando timestamp negativo
para FIFO dentro de prioridad") says that within one priority bucket the
earliest-created task is dequeued first.  The code pushes
`(-creation_timestamp, id)` into a min-heap, so the most negative — that is,
the NEWEST — entry pops first: with tasks `A` (created at 1) and `B`
(created at 2) in the `NORMAL` bucket, `obtener_tarea` returns `B` (LIFO),
not `A` as FIFO requires.  The bucket scan order `CRITICA → ALTA → NORMAL →
BAJA` itself matches the claim. -/
theorem C2_theorem :
    (c2_q2.obtener_tarea 5).1.map Tarea.id = some "B" ∧
    (c2_q2.obtener_tarea 5).1.map Tarea.timestamp_creacion = some 2 ∧
    (lookupA c2_q2.tareas "A").map Tarea.timestamp_creacion = some 1 := by
  refine ⟨by rfl, by rfl, by rfl⟩

/-! ### Claim C3: tier exclusivity -/

/-- C3, counterexample.  After a `put` of a 21-byte value (routed to Tier-2,
compressed to 5 bytes) and two `get`s (the second reaches access frequency 3
and promotes the entry to Tier-1), the key is resident in Tier-1 AND still
in Tier-2's index and blob store: it resides in two tiers, not exactly
one. -/
theorem C3_counterexample :
    (lookupA c3_cache3.cache_l1.datos "k").isSome = true ∧
    (lookupA c3_cache3.cache_l2.metadatos "k").isSome = true ∧
    (lookupA c3_cache3.cache_l2.archivos "k").isSome = true := by
  refine ⟨by rfl, by rfl, by rfl⟩

/-- C3, amended: a key may reside in both tiers at once.  A `get` that
promotes a Tier-2 entry to Tier-1 copies it into Tier-1 and leaves the
Tier-2 blob file and index entry in place (merely bumping the index
metadata); tier exclusivity does not hold. -/
theorem C3_theorem (c : CacheMultinivel) (k : String) (md : Metadata) (stored v : PyVal)
    (now : Nat)
    (hL1 : lookupA c.cache_l1.datos k = Option.none)
    (hmd : lookupA c.cache_l2.metadatos k = some md)
    (harch : lookupA c.cache_l2.archivos k = some stored)
    (hdec : decodeStored md.comprimido stored = some v)
    (hsize : 20 * md.tamano_bytes ≤ c.cache_l1.capacidad_bytes)
    (hfreq : 2 ≤ md.frecuencia_acceso) :
    lookupA (c.get k now).2.cache_l1.datos k = some v ∧
    lookupA (c.get k now).2.cache_l2.metadatos k = some (bumpMd md now) ∧
    lookupA (c.get k now).2.cache_l2.archivos k = some stored := by
  rw [get_promotes c k md stored v now hL1 hmd harch hdec hsize hfreq]
  refine ⟨?_, ?_, ?_⟩
  · exact (CacheL1.l1_put_lookups c.cache_l1 k v (bumpMd md now) hL1).1
  · exact lookupA_setA_self _ _ _
  · exact harch

/-- C3, witness: the promoting `get` on a concrete Tier-2-resident entry
leaves the key in both tiers. -/
theorem C3_witness :
    lookupA ((c9_state.get "kk" 5).2).cache_l1.datos "kk" = some (PyVal.nat 7) ∧
    lookupA ((c9_state.get "kk" 5).2).cache_l2.metadatos "kk" = some (bumpMd c9_md 5) ∧
    lookupA ((c9_state.get "kk" 5).2).cache_l2.archivos "kk" = some (PyVal.nat 7) :=
  C3_theorem c9_state "kk" c9_md (PyVal.nat 7) (PyVal.nat 7) 5 (by rfl) (by rfl) (by rfl)
    (by rfl) (by decide) (by decide)

/-! ### Claim C4: task state machine -/

/-- C4, counterexample.  `cancelar_tarea` checks only that the id is
registered, and `obtener_tarea` marks whatever it pops `EN_PROCESO`: (i) a
task cancelled while queued (terminal state `CANCELADA`) is subsequently
dequeued and moved to `EN_PROCESO` — a terminal state is left; (ii) a task
already `EN_PROCESO` (Running) is cancelled successfully (`true`, state set
to `CANCELADA`), contradicting "a task already Running cannot be
cancelled". -/
theorem C4_counterexample :
    (lookupA c4_cancelada.tareas "A").map Tarea.estado = some EstadoTarea.cancelada ∧
    ((c4_cancelada.obtener_tarea 3).1.map Tarea.estado) = some EstadoTarea.en_proceso ∧
    (lookupA c4_running.tareas "A").map Tarea.estado = some EstadoTarea.en_proceso ∧
    (c4_running.cancelar_tarea "A" 3).1 = true ∧
    (lookupA (c4_running.cancelar_tarea "A" 3).2.tareas "A").map Tarea.estado =
      some EstadoTarea.cancelada := by
  refine ⟨by rfl, by rfl, by rfl, by rfl, by rfl⟩

/-- C4, amended: the real transition behaviour.  `cancelar_tarea` marks any
registered task `CANCELADA` and returns `true` regardless of its current
state (Running and terminal states included), returning `false` only for
unknown ids and leaving the queue otherwise untouched; cancellation does not
remove the task's bucket entry; and `obtener_tarea` marks any task it
returns `EN_PROCESO` with no precondition on its previous state — so
terminal states are not final. -/
theorem C4_theorem :
    (∀ (q : QueueInteligente) (tarea_id : String) (now : Nat) (t : Tarea),
      lookupA q.tareas tarea_id = some t →
      (q.cancelar_tarea tarea_id now).1 = true ∧
      lookupA (q.cancelar_tarea tarea_id now).2.tareas tarea_id =
        some { t with estado := EstadoTarea.cancelada, timestamp_finalizacion := some now }) ∧
    (∀ (q : QueueInteligente) (tarea_id : String) (now : Nat),
      lookupA q.tareas tarea_id = Option.none →
      (q.cancelar_tarea tarea_id now).1 = false ∧ (q.cancelar_tarea tarea_id now).2 = q) ∧
    (∀ (q : QueueInteligente) (tarea_id : String) (now : Nat),
      (q.cancelar_tarea tarea_id now).2.cola_critica = q.cola_critica ∧
      (q.cancelar_tarea tarea_id now).2.cola_alta = q.cola_alta ∧
      (q.cancelar_tarea tarea_id now).2.cola_normal = q.cola_normal ∧
      (q.cancelar_tarea tarea_id now).2.cola_baja = q.cola_baja) ∧
    (∀ (q : QueueInteligente) (now : Nat) (t : Tarea),
      (q.obtener_tarea now).1 = some t → t.estado = EstadoTarea.en_proceso) := by
  refine ⟨?_, ?_, ?_, obtener_tarea_estado⟩
  · intro q tarea_id now t h
    unfold QueueInteligente.cancelar_tarea
    rw [h]
    exact ⟨rfl, lookupA_setA_self _ _ _⟩
  · intro q tarea_id now h
    unfold QueueInteligente.cancelar_tarea
    rw [h]
    exact ⟨rfl, rfl⟩
  · intro q tarea_id now
    unfold QueueInteligente.cancelar_tarea
    cases h : lookupA q.tareas tarea_id with
    | some t => exact ⟨rfl, rfl, rfl, rfl⟩
    | none => exact ⟨rfl, rfl, rfl, rfl⟩

/-- C4, witness: cancelling the queued task `A` at time 5 succeeds and marks
it `CANCELADA`. -/
theorem C4_witness :
    (c4_q1.cancelar_tarea "A" 5).1 = true ∧
    lookupA (c4_q1.cancelar_tarea "A" 5).2.tareas "A" =
      some { tareaBase "A" 1 with
             estado := EstadoTarea.cancelada, timestamp_finalizacion := some 5 } :=
  C4_theorem.1 c4_q1 "A" 5 { tareaBase "A" 1 with estado := EstadoTarea.en_cola } (by rfl)

/-! ### Claim C5: capacity-tier eviction scenario -/

/-- C5, counterexample.  In the scenario (capacity tier 10MB, eleven 1MB
values at ascending access times) the least-recently-accessed key `k01` is
indeed evicted and absent, but the statistics do NOT report 1 eviction: no
capacity eviction increments `estadisticas.evictions` (only the
memory-pressure cleanup `_limpieza_automatica` does), so the counter reads
0, not 1 as the claim requires. -/
theorem C5_counterexample :
    (CacheMultinivel.get c5_final "k01" 99).1 = Option.none ∧
    c5_final.estadisticas.evictions = 0 ∧
    c5_final.estadisticas.evictions ≠ 1 := by
  refine ⟨by rfl, by rfl, ?_⟩
  have h : c5_final.estadisticas.evictions = 0 := by rfl
  omega

/-- C5, amended: in the scenario the least-recently-accessed key `k01` is
absent from the cache, exactly one entry was evicted (the other ten keys all
remain, in order), and the evictions statistic reads 0 because capacity
evictions are not counted. -/
theorem C5_theorem :
    lookupA c5_final.cache_l2.metadatos "k01" = Option.none ∧
    c5_final.cache_l2.metadatos.map Prod.fst =
      ["k02", "k03", "k04", "k05", "k06", "k07", "k08", "k09", "k10", "k11"] ∧
    c5_final.cache_l2.archivos.map Prod.fst =
      ["k02", "k03", "k04", "k05", "k06", "k07", "k08", "k09", "k10", "k11"] ∧
    c5_final.estadisticas.evictions = 0 := by
  refine ⟨by rfl, by rfl, by rfl, by rfl⟩

/-! ### Claim C6: queue-full rejection -/

/-- C6, counterexample.  With `max_size = 1` and a registry holding one task
in the terminal `COMPLETADA` state (zero outstanding tasks), `agregar_tarea`
still rejects a new task: terminal tasks DO count against the limit, because
nothing ever removes finished tasks from `self.tareas` and the bound checks
`len(self.tareas)`. -/
theorem C6_counterexample :
    (c6_q.agregar_tarea (tareaBase "t1" 1)).1 = false ∧
    c6_q.tareasNoTerminales = 0 ∧
    0 < c6_q.max_size := by
  refine ⟨by rfl, by rfl, by decide⟩

/-- C6, amended: for a queue with positive `max_size`, `agregar_tarea`
rejects if and only if the number of REGISTERED tasks — in any state,
terminal states included — has reached `max_size`. -/
theorem C6_theorem (q : QueueInteligente) (t : Tarea) :
    (q.agregar_tarea t).1 = false ↔ 0 < q.max_size ∧ q.max_size ≤ q.tareas.length := by
  unfold QueueInteligente.agregar_tarea
  split
  · rename_i h
    simpa using h
  · rename_i h
    dsimp only
    constructor
    · intro hh
      cases hh
    · intro hh
      exact absurd hh h

/-! ### Claim C7: round-trip integrity -/

/-- C7, counterexample.  Round-trip integrity fails when the key already has
a Tier-1-resident value: `put "k" (nat 5)` routes to Tier-1, a second
`put "k" (blob 20)` routes to Tier-2 without touching the stale Tier-1 copy,
and `get "k"` finds Tier-1 first — returning `nat 5` instead of the value
just stored. -/
theorem C7_counterexample :
    (CacheMultinivel.get c7_shadow "k" 3).1 = some (PyVal.nat 5) ∧
    PyVal.nat 5 ≠ PyVal.blob 20 := by
  refine ⟨by rfl, by decide⟩

/-- C7, amended: round-trip integrity holds whenever the key is not already
resident in Tier-1: for every cache state, key and value, `put` followed by
`get` of that key returns exactly the stored value, on the Tier-1 path, the
uncompressed Tier-2 path and the compressed Tier-2 path alike. -/
theorem C7_theorem (c : CacheMultinivel) (k : String) (v : PyVal)
    (tipo : TipoDato) (costo : Rat) (prio : Int) (now now' : Nat)
    (hL1 : lookupA c.cache_l1.datos k = Option.none) :
    (((c.put k v tipo costo prio now).2).get k now').1 = some v := by
  unfold CacheMultinivel.put
  by_cases hsize : 10 * (pickleLen v : Int) ≤ c.cache_l1.capacidad_bytes
  · simp only [if_pos hsize]
    unfold CacheMultinivel.get
    obtain ⟨hd, hm⟩ :=
      CacheL1.l1_put_lookups c.cache_l1 k v (mdPut k v tipo costo prio now) hL1
    rw [CacheL1.l1_get_hit _ _ _ _ _ hd hm]
  · simp only [if_neg hsize]
    unfold CacheMultinivel.get
    by_cases hcomp : c.habilitar_compresion
    · simp only [hcomp, if_pos]
      rw [CacheL1.l1_get_miss _ _ _ hL1]
      obtain ⟨ha, hm⟩ := CacheL2.l2_put_lookups c.cache_l2 k
        (PyVal.bytes (comprimir (pickleDumps v) tipo))
        { { mdPut k v tipo costo prio now with
            comprimido := true,
            tamano_bytes := ((comprimir (pickleDumps v) tipo).length : Int) } with
          nivel_cache := NivelCache.l2_disco }
      rw [CacheL2.l2_get_hit _ _ _ _ _ hm ha]
      simp only [decodeStored, bumpMd, comprimir, descomprimir,
        gzipDecompress_gzipCompress, pickleLoads_pickleDumps]
    · simp only [hcomp, Bool.false_eq_true, if_false]
      rw [CacheL1.l1_get_miss _ _ _ hL1]
      rw [CacheL2.l2_get_put_self]
      simp [decodeStored, bumpMd, mdPut]

/-- C7, witness: a fresh cache with compression on; a large value goes
through the compressed Tier-2 path and reads back intact. -/
theorem C7_witness :
    ((((CacheMultinivel.init 100 1000 true).put "w" (PyVal.blob 20)
      TipoDato.binario 0 5 1).2).get "w" 2).1 = some (PyVal.blob 20) :=
  C7_theorem (CacheMultinivel.init 100 1000 true) "w" (PyVal.blob 20) TipoDato.binario
    0 5 1 2 (by rfl)

/-! ### Claim C8: Tier-1 LRU correctness -/

/-- C8: Tier-1 LRU eviction is correct.  (a) For a Tier-1 store filled
exactly to capacity whose least-recently-touched entry (the `OrderedDict`
head — both `get` and `put` move a touched key to the back) has the same
size as the entry being inserted, inserting a fresh key evicts exactly that
head entry and keeps everything else, in order.  (b) `put` always either
ends within the byte budget or has emptied the tier so that only the new
entry remains.  (c) a `get` hit moves the touched key to the back (most
recent position), which is what makes the head the least recently
touched. -/
theorem C8_theorem :
    (∀ (c : CacheL1) (k0 k : String) (v0 v : PyVal) (rest : List (String × PyVal))
        (md0 md : Metadata) (s : Int),
      c.datos = (k0, v0) :: rest →
      lookupA c.datos k = Option.none →
      lookupA c.metadatos k0 = some md0 →
      md0.tamano_bytes = s →
      md.tamano_bytes = s →
      0 < s →
      c.tamano_actual = c.capacidad_bytes →
      (c.put k v md).datos = rest ++ [(k, v)]) ∧
    (∀ (c : CacheL1) (k : String) (v : PyVal) (md : Metadata),
      (c.put k v md).tamano_actual ≤ c.capacidad_bytes ∨ (c.put k v md).datos = [(k, v)]) ∧
    (∀ (c : CacheL1) (k : String) (now : Nat) (r : (PyVal × Metadata) × CacheL1),
      c.get k now = some r → r.2.datos.getLast? = some (k, r.1.1)) := by
  refine ⟨?_, ?_, ?_⟩
  · intro c k0 k v0 v rest md0 md s hd hk hmd0 hs0 hs hpos hfull
    have hev : c.evict_lru =
        { c with
          datos := rest,
          metadatos := eraseA c.metadatos k0,
          tamano_actual := c.tamano_actual - s } := by
      unfold CacheL1.evict_lru
      rw [hd]
      simp only [hmd0, Option.map_some', Option.getD_some, hs0]
    unfold CacheL1.put
    simp only [hk, Option.isSome_none, Bool.false_eq_true, if_false]
    rw [evictLoop_step _ _ ⟨by rw [hfull, hs]; omega, by rw [hd]; simp⟩]
    rw [hev]
    rw [evictLoop_stop _ _ (by simp only [hfull, hs]; intro hcon; omega)]
  · intro c k v md
    unfold CacheL1.put
    dsimp only
    split
    · exact put_fits_or_alone
        { c with
          tamano_actual := c.tamano_actual -
            ((lookupA c.metadatos k).map Metadata.tamano_bytes).getD 0,
          datos := eraseA c.datos k,
          metadatos := eraseA c.metadatos k } k v md
    · exact put_fits_or_alone c k v md
  · intro c k now r hr
    unfold CacheL1.get at hr
    split at hr
    · rename_i v hv
      split at hr
      · rename_i md hmd
        simp only [Option.some_inj] at hr
        rw [← hr]
        exact List.getLast?_concat _
      · simp at hr
    · simp at hr

/-- C8, witness: capacity 2, entries `a` (older) and `b`, each of size 1;
inserting `c` evicts exactly `a`; and a `get` of `a` moves it to the
back. -/
theorem C8_witness :
    (c8_l1.put "c" (PyVal.nat 2) (c8_md "c" 3)).datos =
      [("b", PyVal.nat 1)] ++ [("c", PyVal.nat 2)] ∧
    c8_get_res.2.datos.getLast? = some ("a", c8_get_res.1.1) :=
  ⟨C8_theorem.1 c8_l1 "a" "c" (PyVal.nat 0) (PyVal.nat 2) [("b", PyVal.nat 1)]
      (c8_md "a" 1) (c8_md "c" 3) 1 (by rfl) (by rfl) (by rfl) (by rfl) (by rfl)
      (by decide) (by rfl),
    C8_theorem.2.2 c8_l1 "a" 9 c8_get_res (by rfl)⟩

/-! ### Claim C9: promotion law -/

/-- C9: for a key resident in Tier-2 (index entry and blob file), absent
from Tier-1, whose recorded size is at most 5% of Tier-1's capacity and
whose access-frequency counter has reached at least 3, a `get` places the
decoded entry in Tier-1, and the next `get` of that key is a Tier-1 hit
returning the same value. -/
theorem C9_theorem (c : CacheMultinivel) (k : String) (md : Metadata) (stored v : PyVal)
    (t1 t2 : Nat)
    (hL1 : lookupA c.cache_l1.datos k = Option.none)
    (hmd : lookupA c.cache_l2.metadatos k = some md)
    (harch : lookupA c.cache_l2.archivos k = some stored)
    (hdec : decodeStored md.comprimido stored = some v)
    (hsize : 20 * md.tamano_bytes ≤ c.cache_l1.capacidad_bytes)
    (hfreq : 3 ≤ md.frecuencia_acceso) :
    lookupA ((c.get k t1).2).cache_l1.datos k = some v ∧
    (((c.get k t1).2).get k t2).1 = some v ∧
    (((c.get k t1).2).get k t2).2.estadisticas.hits_l1 =
      ((c.get k t1).2).estadisticas.hits_l1 + 1 := by
  have hfreq2 : 2 ≤ md.frecuencia_acceso := by omega
  rw [get_promotes c k md stored v t1 hL1 hmd harch hdec hsize hfreq2]
  obtain ⟨hd1, hm1⟩ := CacheL1.l1_put_lookups c.cache_l1 k v (bumpMd md t1) hL1
  refine ⟨hd1, ?_, ?_⟩
  · unfold CacheMultinivel.get
    simp only [CacheL1.l1_get_hit _ _ _ _ _ hd1 hm1]
  · unfold CacheMultinivel.get
    simp only [CacheL1.l1_get_hit _ _ _ _ _ hd1 hm1]

/-- C9, witness: a concrete Tier-2 entry of size 5 (≤ 5% of the 100-byte
Tier-1 capacity) with access frequency 3 is promoted by one `get` and the
next `get` is a Tier-1 hit. -/
theorem C9_witness :
    lookupA ((c9_state.get "kk" 5).2).cache_l1.datos "kk" = some (PyVal.nat 7) ∧
    (((c9_state.get "kk" 5).2).get "kk" 6).1 = some (PyVal.nat 7) ∧
    (((c9_state.get "kk" 5).2).get "kk" 6).2.estadisticas.hits_l1 =
      ((c9_state.get "kk" 5).2).estadisticas.hits_l1 + 1 :=
  C9_theorem c9_state "kk" c9_md (PyVal.nat 7) (PyVal.nat 7) 5 6 (by rfl) (by rfl)
    (by rfl) (by rfl) (by decide) (by decide)

/-! ### Claim C10: the bytes-stored statistic is cumulative -/

/-- C10: `estadisticas.bytes_almacenados` is monotonically non-decreasing
under every operation — `put` only adds the stored entry's size (even when
it displaces or evicts other entries), `get` and the forced cleanup never
change it — so it reports cumulative bytes ever stored, and it is reset to
zero only by the full-cache clear `limpiar_todo`. -/
theorem C10_theorem :
    (∀ (c : CacheMultinivel) (k : String) (v : PyVal) (tipo : TipoDato) (costo : Rat)
        (prio : Int) (now : Nat),
      c.estadisticas.bytes_almacenados ≤
        ((c.put k v tipo costo prio now).2).estadisticas.bytes_almacenados) ∧
    (∀ (c : CacheMultinivel) (k : String) (now : Nat),
      ((c.get k now).2).estadisticas.bytes_almacenados =
        c.estadisticas.bytes_almacenados) ∧
    (∀ c : CacheMultinivel,
      c.limpieza_automatica.estadisticas.bytes_almacenados =
        c.estadisticas.bytes_almacenados) ∧
    (∀ c : CacheMultinivel, c.limpiar_todo.estadisticas.bytes_almacenados = 0) := by
  have paso : ∀ c : CacheMultinivel,
      c.limpiezaPaso.estadisticas.bytes_almacenados = c.estadisticas.bytes_almacenados := by
    intro c
    unfold CacheMultinivel.limpiezaPaso
    split
    · rfl
    · rfl
  refine ⟨?_, ?_, ?_, fun c => rfl⟩
  · intro c k v tipo costo prio now
    unfold CacheMultinivel.put
    dsimp only
    split
    · show c.estadisticas.bytes_almacenados ≤
        c.estadisticas.bytes_almacenados + (pickleLen v : Int)
      have := Int.natCast_nonneg (pickleLen v)
      omega
    · by_cases hcomp : c.habilitar_compresion
      · simp only [hcomp, if_pos]
        show c.estadisticas.bytes_almacenados ≤
          c.estadisticas.bytes_almacenados + ((comprimir (pickleDumps v) tipo).length : Int)
        have := Int.natCast_nonneg ((comprimir (pickleDumps v) tipo).length)
        omega
      · simp only [hcomp, Bool.false_eq_true, if_false]
        show c.estadisticas.bytes_almacenados ≤
          c.estadisticas.bytes_almacenados + (pickleLen v : Int)
        have := Int.natCast_nonneg (pickleLen v)
        omega
  · intro c k now
    unfold CacheMultinivel.get
    split
    · rfl
    · split
      · split
        · dsimp only
          split
          · rfl
          · rfl
        · rfl
      · rfl
  · intro c
    unfold CacheMultinivel.limpieza_automatica
    generalize (List.range (c.cache_l1.datos.length / 4)) = l
    induction l generalizing c with
    | nil => rfl
    | cons x xs ih =>
      simp only [List.foldl_cons]
      rw [ih, paso]
